import Mathlib

/-!
# Verification of the sunshine-display scrape–extract–cache pipeline

Shallow embedding of `src/server.js` (the current server implementation,
lines 1–812): the field-extraction logic inside `scrapeHourlyFromUrl`'s
`page.evaluate` callback, the day-merge logic of `scrapeWeatherData`, the
cache update `updateWeatherData`, and the single-flight behaviour of the
`/api/hourly-forecast` handler.

Modelling conventions:
* A DOM forecast card is modelled by the texts that the source's CSS
  selector chains would return (`Card` below); element absence is `none` /
  an empty list, and each stored string is the element's trimmed
  `textContent`, exactly what the source matches its regexes against.
* JavaScript regex searches are embedded as scanners over `List Char`.
  Each scanner implements the leftmost-match semantics of the concrete
  pattern used by the source (the patterns are simple enough that greedy
  matching with no effective backtracking is exact; this is argued in the
  doc comment of each scanner).
* Timestamps are modelled as naturals counting milliseconds, mirroring
  `Date` arithmetic; `Date.prototype.setHours` overflow (hour ≥ 24 rolls
  into the next day) is automatic in this representation, and
  `toISOString` is injective and monotone, so string equality/ordering of
  `datetime` values coincides with numeric equality/ordering here.
* JavaScript floats appear only in the precipitation amount; they are
  modelled as `Rat`, with `none` standing for `NaN` (the value
  `parseFloat` returns when the matched token contains no digit).
-/

namespace Sunshine

/-- JavaScript `\s` whitespace, restricted to the characters that can
plausibly occur in scraped text (space, tab, newline, carriage return,
vertical tab, form feed, no-break space). -/
def isSpaceJS (c : Char) : Bool :=
  c = ' ' || c = '\t' || c = '\n' || c = '\r' || c = '\x0b' || c = '\x0c' || c = ' '

/-- Value of a digit run, as computed by JavaScript `parseInt` on a `\d+`
match. -/
def digitsToNat (ds : List Char) : Nat :=
  ds.foldl (fun acc c => 10 * acc + (c.toNat - 48)) 0

/-- Leftmost match of `/(\d+)\s*°/` (source line 468/491), returning
`parseInt` of the captured digits.  A match must start at a digit; after a
maximal digit run and a maximal whitespace run the pattern requires `°`,
and no shorter run can succeed (the following character would be a digit
resp. whitespace); on failure the engine retries from the next character. -/
def scanDeg : List Char → Option Nat
  | [] => none
  | c :: cs =>
    if c.isDigit then
      match (cs.dropWhile Char.isDigit).dropWhile isSpaceJS with
      | '°' :: _ => some (digitsToNat (c :: cs.takeWhile Char.isDigit))
      | _ => scanDeg cs
    else scanDeg cs

/-- Leftmost match of `/(\d+)%/` (source line 516), returning `parseInt`
of the captured digits. -/
def scanPercent : List Char → Option Nat
  | [] => none
  | c :: cs =>
    if c.isDigit then
      match cs.dropWhile Char.isDigit with
      | '%' :: _ => some (digitsToNat (c :: cs.takeWhile Char.isDigit))
      | _ => scanPercent cs
    else scanPercent cs

/-- Characters of the class `[\d.]` used by the precipitation-amount
pattern. -/
def isNumDot (c : Char) : Bool := c.isDigit || c = '.'

/-- The unit alternation `(in|mm|inch|inches)` of `/([\d.]+)\s*(in|mm|inch|inches)/i`
(source line 536).  Since `in` is tried before `inch`/`inches` and is a
prefix of both, the captured unit is always exactly two characters;
`some true` means inches, `some false` millimetres. -/
def unitAt : List Char → Option Bool
  | a :: b :: _ =>
    if a.toLower = 'i' ∧ b.toLower = 'n' then some true
    else if a.toLower = 'm' ∧ b.toLower = 'm' then some false
    else none
  | _ => none

/-- Leftmost match of `/([\d.]+)\s*(in|mm|inch|inches)/i`: returns the
captured numeric token and whether the unit was inches.  A match starts at
a `[\d.]` character; shortening the greedy token or whitespace run places
a `[\d.]` or whitespace character where the unit must start; on failure
the engine retries from the next character. -/
def scanFloatUnit : List Char → Option (List Char × Bool)
  | [] => none
  | c :: cs =>
    if isNumDot c then
      match unitAt ((cs.dropWhile isNumDot).dropWhile isSpaceJS) with
      | some isIn => some (c :: cs.takeWhile isNumDot, isIn)
      | none => scanFloatUnit cs
    else scanFloatUnit cs

/-- Fractional value of the digits after a decimal point. -/
def fracVal (ds : List Char) : Rat :=
  (digitsToNat ds : Rat) / (10 : Rat) ^ ds.length

/-- JavaScript `parseFloat` on a token drawn from the class `[\d.]+`:
the longest valid decimal prefix is converted; a token with no digit
before the first non-initial position (`"."`, `".."`, `"..5"`, …) yields
`NaN`, modelled as `none`. -/
def jsParseFloat : List Char → Option Rat
  | [] => none
  | c :: cs =>
    if c.isDigit then
      some ((digitsToNat (c :: cs.takeWhile Char.isDigit) : Rat) +
        (match cs.dropWhile Char.isDigit with
         | '.' :: ds => fracVal (ds.takeWhile Char.isDigit)
         | _ => 0))
    else if c = '.' then
      if (cs.headD ' ').isDigit then some (fracVal (cs.takeWhile Char.isDigit)) else none
    else none

/-- The `(AM|PM)?` tail of the time pattern `/(\d+)(?::\d+)?\s*(AM|PM)?/i`
(source line 571): `some false` is AM, `some true` is PM, `none` means
the optional group matched nothing. -/
def periodAt : List Char → Option Bool
  | a :: b :: _ =>
    if a.toLower = 'a' ∧ b.toLower = 'm' then some false
    else if a.toLower = 'p' ∧ b.toLower = 'm' then some true
    else none
  | _ => none

/-- The optional group `(?::\d+)?` of the time pattern
`/(\d+)(?::\d+)?\s*(AM|PM)?/i` (source line 571): consume a `:` followed
by a digit run when present, otherwise consume nothing. -/
def afterColon (r1 : List Char) : List Char :=
  match r1 with
  | ':' :: t =>
    match t with
    | d :: _ => if d.isDigit then t.dropWhile Char.isDigit else ':' :: t
    | [] => ':' :: t
  | _ => r1

/-- Leftmost match of the full time pattern: the match must start at the
first digit of the text (everything else in the pattern is optional),
captures the digit run, consumes an optional colon group via
`afterColon`, skips whitespace and reads the optional AM/PM marker. -/
def timeMatch (l : List Char) : Option (Nat × Option Bool) :=
  match l.dropWhile (fun c => !c.isDigit) with
  | [] => none
  | c :: cs =>
    some (digitsToNat (c :: cs.takeWhile Char.isDigit),
      periodAt ((afterColon (cs.dropWhile Char.isDigit)).dropWhile isSpaceJS))

/-- Hour-of-day computation of source lines 567–583: start from the
fallback `now.getHours() + index`, overwrite only when the time text is
non-empty, matches the time pattern and carries an explicit AM/PM marker
(`12 AM ↦ 0`, `12 PM ↦ 12`, otherwise AM keeps the hour and PM adds 12);
a match without marker leaves the fallback in place. -/
def parseHour24 (timeText : String) (fallback : Nat) : Nat :=
  if timeText = "" then fallback
  else
    match timeMatch timeText.data with
    | none => fallback
    | some (h, some true) => if h ≠ 12 then h + 12 else 12
    | some (h, some false) => if h = 12 then 0 else h
    | some (_, none) => fallback

/-- One forecast card, modelled by the (trimmed) texts the source's
selector chains would return for it.

* `timeText`: text of the first element matched by the time selector list
  (source lines 443–459); `none` when no selector matches (the source
  variable then keeps its initial `''`).
* `tempPrimary`: text of the element matched by the compound primary
  temperature selector (line 465), if any.
* `tempCandidates`: for each further temperature selector that matches an
  element (lines 476–482, in order), whether that element sits inside a
  `.real-feel` container, and its text.
* `precipTexts` / `precipAmountTexts`: texts of the elements matched by
  the probability resp. amount selector lists (the loops continue past
  elements whose text does not parse, so each matching element's text is
  kept in order).
* `phraseText`: text of the first element matched by the phrase selectors.
* `fullText`: the card's whole `textContent`.  The current extraction
  code never reads it; the field exists so that properties about a
  claimed full-text fallback can be stated. -/
structure Card where
  timeText : Option String
  tempPrimary : Option String
  tempCandidates : List (Bool × String)
  precipTexts : List String
  precipAmountTexts : List String
  phraseText : Option String
  fullText : String
deriving DecidableEq

/-- Second temperature path, source lines 475–501: walk the selector
candidates in order, skip elements nested inside `.real-feel`, parse
`/(\d+)\s*°/` and accept the first value in `[0,150]` (values outside the
range, and unparseable texts, fall through to the next candidate). -/
def tempFromCandidates : List (Bool × String) → Option Nat
  | [] => none
  | (insideRealFeel, t) :: rest =>
    if insideRealFeel then tempFromCandidates rest
    else
      match scanDeg t.data with
      | some n => if n ≤ 150 then some n else tempFromCandidates rest
      | none => tempFromCandidates rest

/-- Temperature extraction, source lines 462–501: the primary selector's
text is parsed with `/(\d+)\s*°/` and its value is taken *without any
range check*; only if that fails are the remaining candidates tried
(with the `[0,150]` range check).  There is no further fallback: a card
yielding `none` here is dropped from the scrape result (line 610). -/
def extractTemp (card : Card) : Option Nat :=
  match card.tempPrimary with
  | some t =>
    match scanDeg t.data with
    | some n => some n
    | none => tempFromCandidates card.tempCandidates
  | none => tempFromCandidates card.tempCandidates

/-- Precipitation probability, source lines 503–522: first candidate text
matching `/(\d+)%/` wins; default 0.  The parsed value is used verbatim
(no clamping). -/
def extractPrecipProb : List String → Nat
  | [] => 0
  | t :: rest =>
    match scanPercent t.data with
    | some n => n
    | none => extractPrecipProb rest

/-- Millimetres per inch, the source's `25.4` (line 542). -/
def inchToMm : Rat := 254 / 10

/-- Precipitation amount, source lines 524–548: first candidate text
matching `/([\d.]+)\s*(in|mm|inch|inches)/i` wins; `parseFloat` of the
token (`none` = `NaN`), multiplied by 25.4 unless the captured unit is
`mm`; default `0`.  The reported unit is always `"mm"`. -/
def extractPrecipAmount : List String → Option Rat
  | [] => some 0
  | t :: rest =>
    match scanFloatUnit t.data with
    | some (tok, isIn) => (jsParseFloat tok).map (fun v => if isIn then v * inchToMm else v)
    | none => extractPrecipAmount rest

/-- The wall clock read by `new Date()` inside the `page.evaluate`
callback: a day index and the hour / milliseconds-into-the-hour of local
time.  `msOfHour` carries minutes, seconds and milliseconds. -/
structure NowTime where
  day : Nat
  hour : Nat
  msOfHour : Nat
deriving DecidableEq

/-- Milliseconds since the (local) epoch of the current instant. -/
def NowTime.ms (n : NowTime) : Nat := n.day * 86400000 + n.hour * 3600000 + n.msOfHour

/-- One scraped record as produced by the `page.evaluate` callback
(source lines 599–609).  `datetime` is the instant `toISOString` encodes,
in milliseconds; `precipitationAmount = none` models `NaN`; the record's
constant-`null` `icon` field carries no information and is omitted. -/
structure RawHour where
  datetime : Nat
  temperature : Option Nat
  temperatureUnit : String
  precipitation : Nat
  precipitationAmount : Option Rat
  precipitationUnit : String
  iconPhrase : String
  isDaylight : Bool
deriving DecidableEq

/-- The per-card body of `cards.map((card, index) => …)` (source lines
440–609): field extraction, hour synthesis, date synthesis.  `setHours`
rolls an hour ≥ 24 into following days, which the flat millisecond
arithmetic reproduces; the `forecastDate < now` bump applies only on the
today page. -/
def mkRawHour (now : NowTime) (isTomorrowPage : Bool) (index : Nat) (card : Card) : RawHour :=
  let timeText := card.timeText.getD ""
  let hour24 := parseHour24 timeText (now.hour + index)
  let baseDay := now.day + (if isTomorrowPage then 1 else 0)
  let fd := baseDay * 86400000 + hour24 * 3600000
  let fd := if !isTomorrowPage && fd < now.ms then fd + 86400000 else fd
  let iconPhrase := card.phraseText.getD ""
  { datetime := fd
    temperature := extractTemp card
    temperatureUnit := "F"
    precipitation := extractPrecipProb card.precipTexts
    precipitationAmount := extractPrecipAmount card.precipAmountTexts
    precipitationUnit := "mm"
    iconPhrase := if iconPhrase = "" then "Clear" else iconPhrase
    isDaylight := 6 ≤ hour24 && hour24 < 20 }

/-- `scrapeHourlyFromUrl`'s extraction result (source lines 412–611):
cards are capped at 16 *before* mapping, and records without a
temperature are filtered out afterwards. -/
def scrapeHourly (now : NowTime) (isTomorrowPage : Bool) (cards : List Card) : List RawHour :=
  (((cards.take 16).mapIdx (fun i c => mkRawHour now isTomorrowPage i c)).filter
    (fun h => h.temperature.isSome))

/-- Ordering used by `allForecastData.sort((a, b) => new Date(a.datetime) - new Date(b.datetime))`
(source line 672). -/
def hourLE (a b : RawHour) : Prop := a.datetime ≤ b.datetime

instance : DecidableRel hourLE := fun a b => Nat.decLe a.datetime b.datetime

instance : IsTotal RawHour hourLE := ⟨fun a b => Nat.le_total a.datetime b.datetime⟩

instance : IsTrans RawHour hourLE := ⟨fun _ _ _ h1 h2 => Nat.le_trans h1 h2⟩

/-- The sort of source line 672.  JavaScript `Array.prototype.sort` is
stable and the comparator orders by timestamp, so the result is *the*
stable by-`datetime` ordering, which insertion sort computes. -/
def sortHours (l : List RawHour) : List RawHour := List.insertionSort hourLE l

/-- The merge of source lines 652–659: if tomorrow's scrape produced any
records, append those of them whose `datetime` string is not already
present among today's records (a `Set` of ISO strings; string equality
coincides with equality of the millisecond values). -/
def mergeDays (today tomorrow : List RawHour) : List RawHour :=
  if tomorrow.length > 0 then
    today ++ tomorrow.filter (fun h => !((today.map (·.datetime)).contains h.datetime))
  else today

/-- `TOMORROW_FETCH_THRESHOLD_HOURS = 12` (source line 146), expressed in
milliseconds remaining before local midnight. -/
def TOMORROW_FETCH_THRESHOLD_MS : Nat := 12 * 3600000

/-- `getHoursRemainingInDay` (source lines 297–303) returns
`msRemaining / 3600000` as a float; we carry the integral millisecond
count and compare it against the threshold in milliseconds, which is
provably the same comparison (see `hoursRemainingOf_lt_iff`). -/
def hoursRemainingOf (msRemaining : Nat) : Rat := (msRemaining : Rat) / 3600000

/-- The combined records of one refresh, before sorting and truncation
(source lines 643–664): today's records, plus — when fewer than 12 hours
remain in the day and the secondary scrape succeeded — the merged
tomorrow records.  A secondary-scrape failure is caught and ignored. -/
def allMerged (now : NowTime) (msRemaining : Nat) (todayCards : List Card)
    (tomorrowOutcome : Except String (List Card)) : List RawHour :=
  let today := scrapeHourly now false todayCards
  if msRemaining < TOMORROW_FETCH_THRESHOLD_MS then
    match tomorrowOutcome with
    | .ok tcards => mergeDays today (scrapeHourly now true tcards)
    | .error _ => today
  else today

/-- The cache payload (source lines 693–696). -/
structure ForecastSet where
  location : String
  forecast : List RawHour
deriving DecidableEq

instance {ε α : Type} [DecidableEq ε] [DecidableEq α] : DecidableEq (Except ε α)
  | .ok x, .ok y => decidable_of_iff (x = y) (by simp)
  | .ok _, .error _ => isFalse (by simp)
  | .error _, .ok _ => isFalse (by simp)
  | .error e, .error f => decidable_of_iff (e = f) (by simp)

/-- Result of one `scrapeWeatherData` run: whether the secondary
("tomorrow") scrape was invoked, and the outcome. -/
structure ScrapeOutcome where
  fetchedTomorrow : Bool
  result : Except String ForecastSet
deriving DecidableEq

/-- `scrapeWeatherData` (source lines 628–700).  The primary scrape's
outcome is a parameter (`scrapeHourlyFromUrl` propagates navigation and
evaluation failures); if it throws, the whole refresh fails and the
secondary URL is never visited.  Otherwise the records are merged
(`allMerged`), an empty merge raises the fetch failure of line 668, and a
non-empty merge is sorted chronologically and truncated to 16. -/
def scrapeWeatherData (now : NowTime) (msRemaining : Nat)
    (todayOutcome : Except String (List Card × Option String))
    (tomorrowOutcome : Except String (List Card)) : ScrapeOutcome :=
  match todayOutcome with
  | .error e => { fetchedTomorrow := false, result := .error e }
  | .ok (todayCards, locationName) =>
    let fetchedTomorrow := msRemaining < TOMORROW_FETCH_THRESHOLD_MS
    let all := allMerged now msRemaining todayCards tomorrowOutcome
    if all.isEmpty then
      { fetchedTomorrow
        result := .error "No forecast data found on page. The page structure may have changed." }
    else
      { fetchedTomorrow
        result := .ok { location := locationName.getD "Unknown Location"
                        forecast := (sortHours all).take 16 } }

/-- The module-level cache state (source lines 155–157). -/
structure SysState where
  cachedWeatherData : Option ForecastSet
  lastFetchTime : Option Nat
  isFetching : Bool
deriving DecidableEq

/-- `updateWeatherData` (source lines 703–731), as a state transformer
over a completed invocation: an invocation arriving while `isFetching`
is set returns immediately, leaving the state untouched; otherwise the
flag is taken, the scrape result either replaces the cache and timestamp
or — on failure — leaves both unchanged, and the `finally` block clears
the flag. -/
def updateWeatherData (s : SysState) (scrapeResult : Except String ForecastSet)
    (tnow : Nat) : SysState :=
  if s.isFetching then s
  else
    match scrapeResult with
    | .ok d => { cachedWeatherData := some d, lastFetchTime := some tnow, isFetching := false }
    | .error _ => { s with isFetching := false }

/-- The populated-cache path of `GET /api/hourly-forecast` (source lines
750–758): with a populated cache the handler returns the cached
`ForecastSet` unchanged. -/
def getCached (s : SysState) : Option ForecastSet := s.cachedWeatherData

namespace Flight

/-!
Interleaving model for the single-flight property.  Two logical tasks run
the `GET /api/hourly-forecast` handler (source lines 747–791) against an
initially empty cache.  JavaScript's cooperative scheduler only
interleaves at `await` points, so each task advances in atomic segments:

* `start`: the handler's synchronous prefix — return the cache if
  populated; otherwise either enter `updateWeatherData` (whose
  `isFetching` check-and-set happens in the same synchronous turn,
  starting the scrape) or begin polling;
* `scraping`: the awaited scrape finishes — on success the cache is
  filled; either way the `finally` clears the flag, and the handler
  serves whatever is cached (serving does not touch shared state, so it
  is folded into this segment);
* `waiting`: the poll loop of lines 766–768 — a no-op while the flag is
  set; once clear, serve the cache if populated, else fail the request.

`ok` is the stubbed scraper's outcome, shared by all scrape calls.
`scrapeCount` counts scrape invocations (the call counter on the stub).
-/

/-- Program counter of one `get()` task. -/
inductive GPC
  | start
  | waiting
  | scraping
  | doneServe
  | doneScrape
  | doneErr
deriving DecidableEq, Fintype

/-- Shared state visible to both tasks, plus both program counters. -/
structure FState where
  pc1 : GPC
  pc2 : GPC
  fetching : Bool
  cached : Bool
deriving DecidableEq, Fintype

/-- Program counter of task `i` (`false` = first task). -/
def pcOf (fs : FState) (i : Bool) : GPC := if i then fs.pc2 else fs.pc1

/-- Replace the program counter of task `i`. -/
def setPc (fs : FState) (i : Bool) (p : GPC) : FState :=
  if i then { fs with pc2 := p } else { fs with pc1 := p }

/-- One atomic segment of task `i`. -/
def finStep (ok : Bool) (i : Bool) (fs : FState) : FState :=
  match pcOf fs i with
  | .start =>
    if fs.cached then setPc fs i .doneServe
    else if !fs.fetching then { setPc fs i .scraping with fetching := true }
    else setPc fs i .waiting
  | .scraping => { setPc fs i .doneScrape with fetching := false, cached := fs.cached || ok }
  | .waiting =>
    if fs.fetching then fs
    else if fs.cached then setPc fs i .doneServe else setPc fs i .doneErr
  | _ => fs

/-- 1 exactly when scheduling task `i` now starts a scrape. -/
def scrapeIncr (i : Bool) (fs : FState) : Nat :=
  if pcOf fs i = .start && !fs.cached && !fs.fetching then 1 else 0

/-- Full state: shared/per-task state plus the stub's call counter. -/
structure CState where
  fin : FState
  scrapeCount : Nat

/-- Scheduling task `i` for one atomic segment. -/
def taskStep (ok : Bool) (i : Bool) (s : CState) : CState :=
  { fin := finStep ok i s.fin, scrapeCount := s.scrapeCount + scrapeIncr i s.fin }

/-- Initial state: both requests pending, cache empty, no refresh in
flight. -/
def init : CState := ⟨⟨.start, .start, false, false⟩, 0⟩

/-- Execution under a schedule (an arbitrary interleaving of the two
tasks' segments). -/
def run (ok : Bool) (sched : List Bool) : CState :=
  sched.foldl (fun s i => taskStep ok i s) init

/-- Number of tasks that have started a scrape (still scraping, or done
through one). -/
def cScr (fs : FState) : Nat :=
  (if fs.pc1 = .scraping ∨ fs.pc1 = .doneScrape then 1 else 0) +
    (if fs.pc2 = .scraping ∨ fs.pc2 = .doneScrape then 1 else 0)

/-- A task that finished its request. -/
def isDone : GPC → Bool
  | .doneServe | .doneScrape | .doneErr => true
  | _ => false

/-- Inductive invariant of the two-task system.  The flag is set iff a
scrape is in flight, never two scrapes run at once, and — when the stub
succeeds — the cache is populated iff some task completed a scrape, tasks
only serve from a populated cache, waiters only exist while a scrape runs
or after it populated the cache, at most one scrape is ever started, and
no request fails. -/
def FinInv (ok : Bool) (fs : FState) : Bool :=
  (fs.fetching == (fs.pc1 = .scraping || fs.pc2 = .scraping)) &&
  !(fs.pc1 = .scraping && fs.pc2 = .scraping) &&
  (!ok ||
    ((fs.cached == (fs.pc1 = .doneScrape || fs.pc2 = .doneScrape)) &&
     (fs.pc1 = .doneServe → fs.cached) &&
     (fs.pc2 = .doneServe → fs.cached) &&
     (fs.pc1 = .waiting → (fs.fetching || fs.cached)) &&
     (fs.pc2 = .waiting → (fs.fetching || fs.cached)) &&
     (cScr fs ≤ 1) &&
     !(fs.pc1 = .doneErr) && !(fs.pc2 = .doneErr)))

end Flight

/-- An AM/PM marker starts at the head of the text: an `a` or `p`
immediately followed by an `m`, case-insensitively. -/
def isAmPmAt : List Char → Bool
  | a :: b :: _ => (a.toLower = 'a' || a.toLower = 'p') && b.toLower = 'm'
  | _ => false

/-- The text contains an AM/PM marker (`am`, `pm`, any case) somewhere. -/
def hasAmPm : List Char → Bool
  | [] => false
  | c :: cs => isAmPmAt (c :: cs) || hasAmPm cs

/-- Modelled from the spec: the claimed temperature fallback "scanning
the card's full text for all degree-marked integers within [40,120] and
take the maximum".  All `/(\d+)\s*°/` matches of the text, left to
right; the `g`-flag continuation restarts after a match's end.  The fuel
argument (initialised to the text length, which each step strictly
exceeds in consumed characters) only makes the recursion structural. -/
def allDegsAux : Nat → List Char → List Nat
  | 0, _ => []
  | _, [] => []
  | fuel + 1, c :: cs =>
    if c.isDigit then
      match (cs.dropWhile Char.isDigit).dropWhile isSpaceJS with
      | '°' :: after => digitsToNat (c :: cs.takeWhile Char.isDigit) :: allDegsAux fuel after
      | _ => allDegsAux fuel cs
    else allDegsAux fuel cs

/-- All degree-marked integers of the text, leftmost first. -/
def allDegs (l : List Char) : List Nat := allDegsAux l.length l

/-- Modelled from the spec: the full-card-text temperature fallback that
the specification describes ("scan the card's full text for all
degree-marked integers within [40,120] and take the maximum").  This
matches the legacy scraper variant kept in the repository, but is absent
from the current `scrapeHourlyFromUrl`. -/
def specFullTextTempScan (s : String) : Option Nat :=
  ((allDegs s.data).filter (fun n => 40 ≤ n && n ≤ 120)).max?

theorem Flight.finInv_init : ∀ ok : Bool, Flight.FinInv ok Flight.init.fin = true := by decide

set_option maxRecDepth 4000 in
theorem Flight.finInv_step : ∀ (ok i : Bool) (fs : Flight.FState),
    Flight.FinInv ok fs = true → Flight.FinInv ok (Flight.finStep ok i fs) = true := by decide

set_option maxRecDepth 4000 in
theorem Flight.cScr_step : ∀ (ok i : Bool) (fs : Flight.FState),
    Flight.FinInv ok fs = true →
    Flight.cScr (Flight.finStep ok i fs) = Flight.cScr fs + Flight.scrapeIncr i fs := by decide

/-- Along every schedule of the two-request system, the invariant holds
and the stub's call counter equals the number of tasks that have started
a scrape. -/
theorem Flight.run_inv (ok : Bool) (sched : List Bool) :
    Flight.FinInv ok (Flight.run ok sched).fin = true ∧
      (Flight.run ok sched).scrapeCount = Flight.cScr (Flight.run ok sched).fin := by
  suffices h : ∀ s : Flight.CState,
      Flight.FinInv ok s.fin = true → s.scrapeCount = Flight.cScr s.fin →
      Flight.FinInv ok (sched.foldl (fun s i => Flight.taskStep ok i s) s).fin = true ∧
        (sched.foldl (fun s i => Flight.taskStep ok i s) s).scrapeCount =
          Flight.cScr (sched.foldl (fun s i => Flight.taskStep ok i s) s).fin by
    exact h Flight.init (Flight.finInv_init ok) rfl
  induction sched with
  | nil => exact fun s h1 h2 => ⟨h1, h2⟩
  | cons i rest ih =>
    intro s h1 h2
    refine ih (Flight.taskStep ok i s) (Flight.finInv_step ok i s.fin h1) ?_
    show s.scrapeCount + Flight.scrapeIncr i s.fin = Flight.cScr (Flight.finStep ok i s.fin)
    rw [Flight.cScr_step ok i s.fin h1, h2]

set_option maxRecDepth 4000 in
theorem Flight.inv_no_double : ∀ (ok : Bool) (fs : Flight.FState),
    Flight.FinInv ok fs = true →
    ¬(fs.pc1 = Flight.GPC.scraping ∧ fs.pc2 = Flight.GPC.scraping) := by decide

set_option maxRecDepth 4000 in
theorem Flight.inv_terminal_count : ∀ fs : Flight.FState,
    Flight.FinInv true fs = true → Flight.isDone fs.pc1 = true →
    Flight.isDone fs.pc2 = true → Flight.cScr fs = 1 := by decide

/-- The sort of line 672 sorts by `datetime`. -/
theorem sortHours_sorted (l : List RawHour) : (sortHours l).Pairwise hourLE :=
  List.sorted_insertionSort hourLE l

/-- The sort of line 672 is a permutation. -/
theorem sortHours_perm (l : List RawHour) : (sortHours l).Perm l :=
  List.perm_insertionSort hourLE l

/-- A successful refresh whose primary scrape returned `cards` produced a
non-empty merge and cached its sorted, truncated form. -/
theorem result_ok_elim {now : NowTime} {ms : Nat} {cards : List Card} {loc : Option String}
    {tomO : Except String (List Card)} {fs : ForecastSet}
    (h : (scrapeWeatherData now ms (.ok (cards, loc)) tomO).result = .ok fs) :
    allMerged now ms cards tomO ≠ [] ∧
      fs.forecast = (sortHours (allMerged now ms cards tomO)).take 16 := by
  unfold scrapeWeatherData at h
  by_cases he : (allMerged now ms cards tomO).isEmpty
  · simp [he] at h
  · simp [he] at h
    exact ⟨by simpa [List.isEmpty_iff] using he, by rw [← h]⟩

/-- The cross-day dedup of lines 653–656 preserves freedom from duplicate
timestamps: if today's records and tomorrow's records each carry pairwise
distinct datetimes, so does the merge. -/
theorem mergeDays_nodup {t1 t2 : List RawHour}
    (h1 : (t1.map (·.datetime)).Nodup) (h2 : (t2.map (·.datetime)).Nodup) :
    ((mergeDays t1 t2).map (·.datetime)).Nodup := by
  unfold mergeDays
  by_cases hl : t2.length > 0
  · rw [if_pos hl, List.map_append, List.nodup_append]
    refine ⟨h1, List.Nodup.sublist (List.Sublist.map _ (List.filter_sublist t2)) h2, ?_⟩
    intro x hx1 hx2
    obtain ⟨h', hmem, hdt⟩ := List.mem_map.mp hx2
    have hf := List.of_mem_filter hmem
    simp at hf
    rw [← hdt] at hx1
    obtain ⟨y, hy, hyeq⟩ := List.mem_map.mp hx1
    exact hf y hy hyeq
  · rw [if_neg hl]; exact h1

/-- Soundness of the candidate walk of lines 475–501: a produced value is
at most 150 and stems from a non-`real-feel` candidate whose text parses
to it. -/
theorem tempFromCandidates_sound : ∀ (cands : List (Bool × String)) (n : Nat),
    tempFromCandidates cands = some n →
    n ≤ 150 ∧ ∃ p ∈ cands, p.1 = false ∧ scanDeg p.2.data = some n := by
  intro cands
  induction cands with
  | nil => intro n h; simp [tempFromCandidates] at h
  | cons p rest ih =>
    intro n h
    obtain ⟨b, t⟩ := p
    cases b with
    | true =>
      simp only [tempFromCandidates, if_true] at h
      obtain ⟨hle, q, hq, hq1, hq2⟩ := ih n h
      exact ⟨hle, q, List.mem_cons_of_mem _ hq, hq1, hq2⟩
    | false =>
      cases hs : scanDeg t.data with
      | none =>
        simp only [tempFromCandidates, hs, Bool.false_eq_true, if_false] at h
        obtain ⟨hle, q, hq, hq1, hq2⟩ := ih n h
        exact ⟨hle, q, List.mem_cons_of_mem _ hq, hq1, hq2⟩
      | some m =>
        simp only [tempFromCandidates, hs, Bool.false_eq_true, if_false] at h
        by_cases hm : m ≤ 150
        · rw [if_pos hm] at h
          obtain rfl : m = n := by simpa using h
          exact ⟨hm, (false, t), List.mem_cons_self _ _, rfl, hs⟩
        · rw [if_neg hm] at h
          obtain ⟨hle, q, hq, hq1, hq2⟩ := ih n h
          exact ⟨hle, q, List.mem_cons_of_mem _ hq, hq1, hq2⟩

/-- The probability loop of lines 503–522 returns the first parseable
percent among the candidate texts, defaulting to 0. -/
theorem extractPrecipProb_eq : ∀ texts : List String,
    extractPrecipProb texts = ((texts.filterMap (fun t => scanPercent t.data)).headD 0) := by
  intro texts
  induction texts with
  | nil => rfl
  | cons t rest ih =>
    cases hs : scanPercent t.data with
    | none => simp [extractPrecipProb, List.filterMap_cons, hs, ih]
    | some n => simp [extractPrecipProb, List.filterMap_cons, hs]

theorem fracVal_nonneg (ds : List Char) : 0 ≤ fracVal ds :=
  div_nonneg (Nat.cast_nonneg _) (pow_nonneg (by norm_num) _)

/-- Whenever `parseFloat` returns a number (rather than `NaN`), that
number is non-negative — the token only contains digits and dots. -/
theorem jsParseFloat_nonneg : ∀ (l : List Char) (v : Rat), jsParseFloat l = some v → 0 ≤ v := by
  intro l v h
  match l with
  | [] => simp [jsParseFloat] at h
  | c :: cs =>
    simp only [jsParseFloat] at h
    by_cases hd : c.isDigit
    · rw [if_pos hd] at h
      obtain rfl := (Option.some_inj.mp h).symm
      refine add_nonneg (Nat.cast_nonneg _) ?_
      split
      · exact fracVal_nonneg _
      · exact le_refl 0
    · rw [if_neg hd] at h
      by_cases hc : c = '.'
      · rw [if_pos hc] at h
        by_cases hdd : (cs.headD ' ').isDigit
        · rw [if_pos hdd] at h
          obtain rfl := (Option.some_inj.mp h).symm
          exact fracVal_nonneg _
        · rw [if_neg hdd] at h; simp at h
      · rw [if_neg hc] at h; simp at h

/-- The threshold comparison `hoursRemaining < 12` of line 634 is the
millisecond comparison against `TOMORROW_FETCH_THRESHOLD_MS`. -/
theorem hoursRemainingOf_lt_iff (ms : Nat) :
    hoursRemainingOf ms < 12 ↔ ms < TOMORROW_FETCH_THRESHOLD_MS := by
  unfold hoursRemainingOf TOMORROW_FETCH_THRESHOLD_MS
  rw [div_lt_iff₀ (by norm_num : (0 : Rat) < 3600000)]
  constructor
  · intro h; exact_mod_cast h
  · intro h; exact_mod_cast h

theorem dropWhile_suffix (p : Char → Bool) (l : List Char) : l.dropWhile p <:+ l := by
  induction l with
  | nil => exact List.suffix_refl _
  | cons c cs ih =>
    by_cases h : p c
    · rw [List.dropWhile_cons, if_pos h]
      exact ih.trans (List.suffix_cons c cs)
    · rw [List.dropWhile_cons, if_neg h]

theorem afterColon_suffix (r1 : List Char) : afterColon r1 <:+ r1 := by
  unfold afterColon
  split
  · split
    · split
      · exact (dropWhile_suffix _ _).trans (List.suffix_cons _ _)
      · exact List.suffix_refl _
    · exact List.suffix_refl _
  · exact List.suffix_refl _

theorem hasAmPm_head {l : List Char} (h : hasAmPm l = false) : isAmPmAt l = false := by
  cases l with
  | nil => rfl
  | cons c cs => rw [hasAmPm, Bool.or_eq_false_iff] at h; exact h.1

theorem hasAmPm_suffix : ∀ {l l' : List Char}, l' <:+ l → hasAmPm l = false →
    hasAmPm l' = false := by
  intro l
  induction l with
  | nil => intro l' hs h; rw [List.suffix_nil.mp hs]; rfl
  | cons c cs ih =>
    intro l' hs h
    rw [hasAmPm, Bool.or_eq_false_iff] at h
    rcases List.suffix_cons_iff.mp hs with rfl | hs2
    · rw [hasAmPm, Bool.or_eq_false_iff]; exact h
    · exact ih hs2 h.2

theorem periodAt_eq_none_of_not_marker {l : List Char} (h : isAmPmAt l = false) :
    periodAt l = none := by
  match l with
  | [] => rfl
  | [a] => rfl
  | a :: b :: t =>
    simp only [isAmPmAt, Bool.and_eq_false_iff, Bool.or_eq_false_iff,
      decide_eq_false_iff_not] at h
    simp only [periodAt]
    split_ifs with h1 h2
    · rcases h with ⟨ha, _⟩ | hm
      · exact absurd h1.1 ha
      · exact absurd h1.2 hm
    · rcases h with ⟨_, hp⟩ | hm
      · exact absurd h2.1 hp
      · exact absurd h2.2 hm
    · rfl

/-- If the text carries no AM/PM marker anywhere, the time pattern's
optional `(AM|PM)` group matches nothing. -/
theorem timeMatch_period {l : List Char} (hna : hasAmPm l = false) {hd : Nat}
    {per : Option Bool} (h : timeMatch l = some (hd, per)) : per = none := by
  unfold timeMatch at h
  cases hdr : l.dropWhile (fun c => !c.isDigit) with
  | nil => rw [hdr] at h; simp at h
  | cons c cs =>
    rw [hdr] at h
    simp only [Option.some.injEq, Prod.mk.injEq] at h
    have s0 : c :: cs <:+ l := hdr ▸ dropWhile_suffix _ l
    have hsuf : (afterColon (cs.dropWhile Char.isDigit)).dropWhile isSpaceJS <:+ l :=
      (dropWhile_suffix _ _).trans ((afterColon_suffix _).trans
        ((dropWhile_suffix _ cs).trans ((List.suffix_cons c cs).trans s0)))
    rw [← h.2]
    exact periodAt_eq_none_of_not_marker (hasAmPm_head (hasAmPm_suffix hsuf hna))

/-- Lines 567–583: a time text without AM/PM marker leaves the fallback
hour in place, whatever digits it contains. -/
theorem parseHour24_fallback {s : String} (hna : hasAmPm s.data = false) (fallback : Nat) :
    parseHour24 s fallback = fallback := by
  unfold parseHour24
  by_cases hse : s = ""
  · rw [if_pos hse]
  · rw [if_neg hse]
    cases htm : timeMatch s.data with
    | none => rfl
    | some p =>
      obtain ⟨h, per⟩ := p
      obtain rfl : per = none := timeMatch_period hna htm
      rfl

/-- `fetchedTomorrow` only depends on the millisecond threshold once the
primary scrape succeeded. -/
theorem fetchedTomorrow_eq (now : NowTime) (ms : Nat) (p : List Card × Option String)
    (tomO : Except String (List Card)) :
    (scrapeWeatherData now ms (.ok p) tomO).fetchedTomorrow =
      decide (ms < TOMORROW_FETCH_THRESHOLD_MS) := by
  obtain ⟨cards, loc⟩ := p
  unfold scrapeWeatherData
  dsimp only
  split <;> rfl

/-- C1, counterexample.  The claim asserts that the `hours` of every
merged `ForecastSet` are strictly sorted with no duplicate `datetime`,
*including* when two cards of the same single-day scrape synthesize the
same datetime.  Concretely: at 14:00 local time, a first card reading
"3 PM" gives hour 15, and a second card whose time selectors all miss
gets the fallback hour `14 + 1 = 15`; both records survive (dedup at
lines 653–656 only runs between the two day scrapes), so the cached set
contains the datetime 54000000 ms (= day 0, 15:00) twice. -/
theorem C1_counterexample :
    ((scrapeWeatherData ⟨0, 14, 0⟩ 36000000
        (.ok ([⟨some "3 PM", some "70°", [], [], [], none, ""⟩,
               ⟨none, some "71°", [], [], [], none, ""⟩], some "Culver City"))
        (.ok [])).result.map (fun fs => fs.forecast.map (·.datetime))) =
      .ok [54000000, 54000000] ∧ ¬([54000000, 54000000] : List Nat).Nodup := by
  exact ⟨by decide, by decide⟩

/-- C1, amended.  For every `ForecastSet` produced by a successful
refresh, `hours` is sorted *non-decreasingly* by `datetime` and has
length at most 16; duplicates are removed only across the today/tomorrow
merge, so the result is duplicate-free whenever each individual day's
scrape is (two cards of the same single-day scrape can still collide,
and such duplicates are retained). -/
theorem C1_amended :
    (∀ (now : NowTime) (ms : Nat) (cards : List Card) (loc : Option String)
        (tomO : Except String (List Card)) (fs : ForecastSet),
        (scrapeWeatherData now ms (.ok (cards, loc)) tomO).result = .ok fs →
        fs.forecast.Pairwise hourLE ∧ fs.forecast.length ≤ 16 ∧
          (((allMerged now ms cards tomO).map (·.datetime)).Nodup →
            (fs.forecast.map (·.datetime)).Nodup)) ∧
    (∀ t1 t2 : List RawHour, (t1.map (·.datetime)).Nodup → (t2.map (·.datetime)).Nodup →
        ((mergeDays t1 t2).map (·.datetime)).Nodup) := by
  constructor
  · intro now ms cards loc tomO fs h
    obtain ⟨hne, hfs⟩ := result_ok_elim h
    refine ⟨?_, ?_, ?_⟩
    · rw [hfs]
      exact List.Pairwise.sublist (List.take_sublist _ _) (sortHours_sorted _)
    · rw [hfs, List.length_take]
      exact min_le_left _ _
    · intro hnd
      rw [hfs]
      have hperm : ((sortHours (allMerged now ms cards tomO)).map (·.datetime)).Perm
          ((allMerged now ms cards tomO).map (·.datetime)) := (sortHours_perm _).map _
      exact List.Nodup.sublist (List.Sublist.map _ (List.take_sublist _ _))
        (hperm.nodup_iff.mpr hnd)
  · intro t1 t2 h1 h2
    exact mergeDays_nodup h1 h2

/-- C1, witness: the cross-day merge keeps distinct datetimes distinct at
a concrete input. -/
theorem C1_witness :
    ((mergeDays [⟨54000000, some 70, "F", 0, some 0, "mm", "Clear", true⟩]
        [⟨54000000, some 60, "F", 0, some 0, "mm", "Clear", true⟩,
         ⟨140400000, some 60, "F", 0, some 0, "mm", "Clear", true⟩]).map (·.datetime)).Nodup :=
  C1_amended.2 _ _ (by decide) (by decide)

/-- C2, counterexample.  The claim asserts that when every direct
temperature selector fails, the card's full text is scanned for
degree-marked integers in `[40,120]` and the maximum is taken.  The
current code has no such fallback: a card whose selectors all miss but
whose full text reads "75°" yields no record at all, while the claimed
fallback (modelled from the spec as `specFullTextTempScan`) would give
75. -/
theorem C2_counterexample :
    scrapeHourly ⟨0, 14, 0⟩ false [⟨none, none, [], [], [], none, "75°"⟩] = [] ∧
      specFullTextTempScan "75°" = some 75 := by
  exact ⟨by decide, by decide⟩

/-- C2, amended.  Temperature extraction first tries the primary selector
and accepts its degree-marked integer *without any range check*; only on
failure are the remaining selector candidates tried, skipping elements
nested under a feels-like container and accepting only values in
`[0,150]`.  There is no full-text fallback; a record with no temperature
from these selector paths is excluded from the scrape result. -/
theorem C2_amended :
    (∀ (c : Card) (t : String) (n : Nat), c.tempPrimary = some t →
        scanDeg t.data = some n → extractTemp c = some n) ∧
    (∀ (c : Card) (n : Nat), extractTemp c = some n →
        (∃ t, c.tempPrimary = some t ∧ scanDeg t.data = some n) ∨
          (n ≤ 150 ∧ ∃ p ∈ c.tempCandidates, p.1 = false ∧ scanDeg p.2.data = some n)) ∧
    (∀ (now : NowTime) (b : Bool) (cards : List Card) (h : RawHour),
        h ∈ scrapeHourly now b cards → h.temperature.isSome = true) := by
  refine ⟨?_, ?_, ?_⟩
  · intro c t n hp hs
    simp [extractTemp, hp, hs]
  · intro c n h
    cases hp : c.tempPrimary with
    | none =>
      simp only [extractTemp, hp] at h
      exact Or.inr (tempFromCandidates_sound _ _ h)
    | some t =>
      simp only [extractTemp, hp] at h
      cases hs : scanDeg t.data with
      | none =>
        rw [hs] at h
        exact Or.inr (tempFromCandidates_sound _ _ h)
      | some m =>
        rw [hs] at h
        obtain rfl : m = n := by simpa using h
        exact Or.inl ⟨t, rfl, hs⟩
  · intro now b cards h hmem
    have := List.of_mem_filter hmem
    simpa using this

/-- C2, witness: the primary path takes 999 — far outside `[0,150]` —
directly from a primary selector text reading "999°". -/
theorem C2_witness : extractTemp ⟨none, some "999°", [], [], [], none, ""⟩ = some 999 :=
  C2_amended.1 _ "999°" 999 rfl (by decide)

/-- C3: single-flight refresh.  In every interleaving of two `get()`
requests against an empty cache, at no reachable state are two scrapes in
flight; an `updateWeatherData` call arriving while the in-flight flag is
set returns immediately leaving the state unchanged; and in every
interleaving in which both requests complete (with a succeeding stubbed
scraper), the stub's call counter is exactly 1. -/
theorem C3_thm :
    (∀ (ok : Bool) (sched : List Bool),
        ¬((Flight.run ok sched).fin.pc1 = Flight.GPC.scraping ∧
          (Flight.run ok sched).fin.pc2 = Flight.GPC.scraping)) ∧
    (∀ (s : SysState) (r : Except String ForecastSet) (t : Nat),
        s.isFetching = true → updateWeatherData s r t = s) ∧
    (∀ sched : List Bool, Flight.isDone (Flight.run true sched).fin.pc1 = true →
        Flight.isDone (Flight.run true sched).fin.pc2 = true →
        (Flight.run true sched).scrapeCount = 1) := by
  refine ⟨?_, ?_, ?_⟩
  · intro ok sched
    exact Flight.inv_no_double ok _ (Flight.run_inv ok sched).1
  · intro s r t h
    unfold updateWeatherData
    rw [if_pos h]
  · intro sched h1 h2
    obtain ⟨hinv, hcnt⟩ := Flight.run_inv true sched
    rw [hcnt]
    exact Flight.inv_terminal_count _ hinv h1 h2

/-- C3, witness: under the schedule "task 1 runs to completion, then
task 2", both requests complete and exactly one scrape was started. -/
theorem C3_witness : (Flight.run true [false, false, true]).scrapeCount = 1 :=
  C3_thm.2.2 [false, false, true] (by decide) (by decide)

/-- C4: on any refresh failure — including an empty merge, which raises
the line-668 failure instead of being cached — the cached `ForecastSet`
and its fetch timestamp are unchanged, and a subsequent `get()` against
the populated cache returns the pre-failure data unchanged.  (An empty
forecast list is never cached at all.) -/
theorem C4_thm :
    (∀ (now : NowTime) (ms : Nat) (tO : Except String (List Card × Option String))
        (tomO : Except String (List Card)) (fs : ForecastSet),
        (scrapeWeatherData now ms tO tomO).result = .ok fs → fs.forecast ≠ []) ∧
    (∀ (now : NowTime) (ms : Nat) (cards : List Card) (loc : Option String)
        (tomO : Except String (List Card)), allMerged now ms cards tomO = [] →
        (scrapeWeatherData now ms (.ok (cards, loc)) tomO).result =
          .error "No forecast data found on page. The page structure may have changed.") ∧
    (∀ (s : SysState) (r : Except String ForecastSet) (t : Nat) (e : String),
        r = .error e → (updateWeatherData s r t).cachedWeatherData = s.cachedWeatherData ∧
          (updateWeatherData s r t).lastFetchTime = s.lastFetchTime) ∧
    (∀ (s : SysState) (r : Except String ForecastSet) (t : Nat) (e : String)
        (fs : ForecastSet), r = .error e → s.cachedWeatherData = some fs →
        getCached (updateWeatherData s r t) = some fs) := by
  refine ⟨?_, ?_, ?_, ?_⟩
  · intro now ms tO tomO fs h
    cases tO with
    | error e => simp [scrapeWeatherData] at h
    | ok p =>
      obtain ⟨cards, loc⟩ := p
      obtain ⟨hne, hfs⟩ := result_ok_elim h
      rw [hfs]
      intro hcon
      apply hne
      have hlen : ((sortHours (allMerged now ms cards tomO)).take 16).length = 0 := by
        rw [hcon]; rfl
      rw [List.length_take] at hlen
      have : (allMerged now ms cards tomO).length = 0 := by
        have hp := (sortHours_perm (allMerged now ms cards tomO)).length_eq
        omega
      exact List.length_eq_zero.mp this
  · intro now ms cards loc tomO h
    simp [scrapeWeatherData, h]
  · intro s r t e hr
    subst hr
    by_cases hf : s.isFetching
    · simp [updateWeatherData, hf]
    · simp [updateWeatherData, hf]
  · intro s r t e fs hr hc
    subst hr
    by_cases hf : s.isFetching
    · simp [getCached, updateWeatherData, hf, hc]
    · simp [getCached, updateWeatherData, hf, hc]

/-- C4, witness: a failed refresh against a populated cache leaves the
pre-failure payload readable. -/
theorem C4_witness :
    getCached (updateWeatherData ⟨some ⟨"Culver City", []⟩, some 99, false⟩
        (.error "No forecast data found on page. The page structure may have changed.") 123) =
      some ⟨"Culver City", []⟩ :=
  C4_thm.2.2.2 _ _ 123 _ ⟨"Culver City", []⟩ rfl rfl

/-- C5, counterexample.  The claim asserts
`0 ≤ precipitationProbability ≤ 100` for every hour of a merged set,
including when the integer before the percent sign exceeds 100.  The
code (lines 516–518) uses `parseInt` of the match verbatim, with no
clamping: a card whose probability text reads "150%" is cached with
`precipitation = 150 > 100`. -/
theorem C5_counterexample :
    ((scrapeWeatherData ⟨0, 14, 0⟩ 36000000
        (.ok ([⟨some "3 PM", some "70°", [], ["150%"], [], none, ""⟩], none))
        (.ok [])).result.map (fun fs => fs.forecast.map (·.precipitation))) = .ok [150] ∧
      ¬(150 ≤ 100) := by
  exact ⟨by decide, by decide⟩

/-- C5, amended.  `precipitationProbability` is the `parseInt` value of
the first candidate text matching `/(\d+)%/` — hence a non-negative
integer — defaulting to 0 when no selector yields a parseable percent
value; the parsed value is not clamped and may exceed 100. -/
theorem C5_amended :
    (∀ texts : List String,
        extractPrecipProb texts = ((texts.filterMap (fun t => scanPercent t.data)).headD 0)) ∧
    (∀ (now : NowTime) (b : Bool) (i : Nat) (c : Card),
        (mkRawHour now b i c).precipitation = extractPrecipProb c.precipTexts) :=
  ⟨extractPrecipProb_eq, fun _ _ _ _ => rfl⟩

/-- C6, counterexample.  The claim asserts the resulting amount is always
non-negative.  The token class `[\d.]+` also matches a bare dot: on the
text ". in" the code computes `parseFloat(".") * 25.4 = NaN` (modelled
`none`), which is not a non-negative number. -/
theorem C6_counterexample : extractPrecipAmount [". in"] = none := by decide

/-- C6, amended.  Precipitation amount parses a float followed by a unit
token, converts inches to millimetres via ×25.4 (an input of `1.0 in`
yields exactly 25.4 mm in the rational model), defaults to amount 0 when
no selector text matches, and always reports the unit "mm"; the amount
is non-negative whenever the matched numeric token parses to a number at
all (a dots-only token yields `NaN`, modelled `none`). -/
theorem C6_amended :
    (∀ (texts : List String) (v : Rat), extractPrecipAmount texts = some v → 0 ≤ v) ∧
    extractPrecipAmount ["1.0 in"] = some (254 / 10 : Rat) ∧
    (∀ texts : List String, (∀ t ∈ texts, scanFloatUnit t.data = none) →
        extractPrecipAmount texts = some 0) ∧
    (∀ (now : NowTime) (b : Bool) (i : Nat) (c : Card),
        (mkRawHour now b i c).precipitationUnit = "mm") := by
  refine ⟨?_, ?_, ?_, fun _ _ _ _ => rfl⟩
  · intro texts
    induction texts with
    | nil =>
      intro v h
      obtain rfl := (Option.some_inj.mp h).symm
      exact le_refl 0
    | cons t rest ih =>
      intro v h
      cases hs : scanFloatUnit t.data with
      | none =>
        simp only [extractPrecipAmount, hs] at h
        exact ih v h
      | some p =>
        obtain ⟨tok, isIn⟩ := p
        simp only [extractPrecipAmount, hs] at h
        obtain ⟨w, hw, hfw⟩ := Option.map_eq_some'.mp h
        have hw0 := jsParseFloat_nonneg tok w hw
        rw [← hfw]
        cases isIn with
        | true =>
          simp only [if_true]
          exact mul_nonneg hw0 (by norm_num [inchToMm])
        | false => simpa using hw0
  · have hscan : scanFloatUnit "1.0 in".data = some ("1.0".data, true) := by decide
    have hpf : jsParseFloat "1.0".data = some ((digitsToNat ['1'] : Rat) + fracVal ['0']) := rfl
    have h1 : digitsToNat ['1'] = 1 := by decide
    have h0 : digitsToNat ['0'] = 0 := by decide
    simp only [extractPrecipAmount, hscan, hpf, Option.map_some']
    norm_num [fracVal, h0, h1, inchToMm]
  · intro texts hall
    induction texts with
    | nil => rfl
    | cons t rest ih =>
      have hh : scanFloatUnit t.data = none := hall t (List.mem_cons_self _ _)
      simp only [extractPrecipAmount, hh]
      exact ih (fun u hu => hall u (List.mem_cons_of_mem _ hu))

/-- C6, witness: at the concrete input `"1.0 in"` the parsed amount is a
number and non-negative. -/
theorem C6_witness : (0 : Rat) ≤ (254 / 10 : Rat) :=
  C6_amended.1 ["1.0 in"] (254 / 10) C6_amended.2.1

/-- C7, counterexample.  The claim asserts the secondary scrape is
invoked *iff* `hoursRemainingToday < 12`.  If the primary scrape throws
(line 641 propagates into the catch at line 697), the secondary URL is
never visited even with 11.9 hours (42840000 ms) remaining, so the
left-to-right reading of the iff fails. -/
theorem C7_counterexample :
    (scrapeWeatherData ⟨0, 12, 360000⟩ 42840000 (.error "navigation timeout")
        (.ok [])).fetchedTomorrow = false ∧
      hoursRemainingOf 42840000 < 12 := by
  refine ⟨rfl, ?_⟩
  rw [hoursRemainingOf_lt_iff]
  decide

/-- C7, amended.  Provided the primary scrape succeeds, the secondary
("tomorrow") scrape is invoked iff `hoursRemainingToday < 12`; the
forward direction (invoked → below threshold) holds unconditionally.
With 11.9 hours (42840000 ms) remaining it is invoked, with 12.1 hours
(43560000 ms) it is not. -/
theorem C7_amended :
    (∀ (now : NowTime) (ms : Nat) (p : List Card × Option String)
        (tomO : Except String (List Card)),
        ((scrapeWeatherData now ms (.ok p) tomO).fetchedTomorrow = true ↔
          hoursRemainingOf ms < 12)) ∧
    (∀ (now : NowTime) (ms : Nat) (tO : Except String (List Card × Option String))
        (tomO : Except String (List Card)),
        (scrapeWeatherData now ms tO tomO).fetchedTomorrow = true →
          hoursRemainingOf ms < 12) ∧
    (∀ (now : NowTime) (p : List Card × Option String) (tomO : Except String (List Card)),
        (scrapeWeatherData now 42840000 (.ok p) tomO).fetchedTomorrow = true) ∧
    (∀ (now : NowTime) (p : List Card × Option String) (tomO : Except String (List Card)),
        (scrapeWeatherData now 43560000 (.ok p) tomO).fetchedTomorrow = false) ∧
    hoursRemainingOf 42840000 = 119 / 10 ∧ hoursRemainingOf 43560000 = 121 / 10 := by
  have hiff : ∀ (now : NowTime) (ms : Nat) (p : List Card × Option String)
      (tomO : Except String (List Card)),
      ((scrapeWeatherData now ms (.ok p) tomO).fetchedTomorrow = true ↔
        hoursRemainingOf ms < 12) := by
    intro now ms p tomO
    rw [fetchedTomorrow_eq, hoursRemainingOf_lt_iff, decide_eq_true_iff]
  refine ⟨hiff, ?_, ?_, ?_, ?_, ?_⟩
  · intro now ms tO tomO h
    cases tO with
    | error e => simp [scrapeWeatherData] at h
    | ok p => exact (hiff now ms p tomO).mp h
  · intro now p tomO
    exact (hiff now 42840000 p tomO).mpr (by rw [hoursRemainingOf_lt_iff]; decide)
  · intro now p tomO
    rw [fetchedTomorrow_eq]
    decide
  · norm_num [hoursRemainingOf]
  · norm_num [hoursRemainingOf]

/-- C7, witness: at 42840000 ms (= 11.9 h) remaining with a succeeding
primary scrape, the secondary scrape is invoked, which forces the
below-threshold fact through the forward direction. -/
theorem C7_witness : hoursRemainingOf 42840000 < 12 :=
  C7_amended.2.1 ⟨0, 12, 360000⟩ 42840000 (.ok ([], none)) (.ok [])
    (C7_amended.2.2.1 ⟨0, 12, 360000⟩ ([], none) (.ok []))

/-- C8: a failure of the secondary ("tomorrow") scrape is caught inside
`scrapeWeatherData` (lines 660–663) and does not propagate — provided
today's scrape yielded at least one record, the refresh succeeds with
today's records alone (sorted, truncated to 16, with the primary
location name). -/
theorem C8_thm : ∀ (now : NowTime) (ms : Nat) (cards : List Card) (loc : Option String)
    (e : String), hoursRemainingOf ms < 12 → scrapeHourly now false cards ≠ [] →
    (scrapeWeatherData now ms (.ok (cards, loc)) (.error e)).result =
      .ok ⟨loc.getD "Unknown Location", (sortHours (scrapeHourly now false cards)).take 16⟩ ∧
      (scrapeWeatherData now ms (.ok (cards, loc)) (.error e)).fetchedTomorrow = true := by
  intro now ms cards loc e hlt hne
  rw [hoursRemainingOf_lt_iff] at hlt
  have hall : allMerged now ms cards (.error e) = scrapeHourly now false cards := by
    unfold allMerged
    rw [if_pos hlt]
  constructor
  · unfold scrapeWeatherData
    dsimp only
    rw [hall, if_neg (by simpa [List.isEmpty_iff] using hne)]
  · rw [fetchedTomorrow_eq]
    simpa using hlt

/-- C8, witness: with 11.9 h remaining, one valid "3 PM" card today and a
failing tomorrow scrape, the refresh succeeds on today's record alone. -/
theorem C8_witness :
    (scrapeWeatherData ⟨0, 12, 360000⟩ 42840000
        (.ok ([⟨some "3 PM", some "70°", [], [], [], none, ""⟩], none)) (.error "nav")).result =
      .ok ⟨"Unknown Location",
        (sortHours (scrapeHourly ⟨0, 12, 360000⟩ false
          [⟨some "3 PM", some "70°", [], [], [], none, ""⟩])).take 16⟩ :=
  (C8_thm ⟨0, 12, 360000⟩ 42840000 _ none "nav" (by norm_num [hoursRemainingOf]) (by decide)).1

/-- C9: a time text that contains a digit but no AM/PM marker (such as
"15:00") leaves the fallback hour `currentHour + cardIndex` in place —
the parsed digit is discarded; an explicit AM/PM time maps "12 AM" to
hour 0 and "12 PM" to hour 12. -/
theorem C9_thm :
    (∀ (s : String) (currentHour idx : Nat), s.data.any Char.isDigit = true →
        hasAmPm s.data = false → parseHour24 s (currentHour + idx) = currentHour + idx) ∧
    (∀ f : Nat, parseHour24 "12 AM" f = 0) ∧
    (∀ f : Nat, parseHour24 "12 PM" f = 12) := by
  refine ⟨?_, ?_, ?_⟩
  · intro s ch idx _ hna
    exact parseHour24_fallback hna _
  · intro f; rfl
  · intro f; rfl

/-- C9, witness: the card text "15:00" at current hour 14 and card index
1 yields the fallback hour 15. -/
theorem C9_witness : parseHour24 "15:00" (14 + 1) = 14 + 1 :=
  C9_thm.1 "15:00" 14 1 (by decide) (by decide)

/-- C10, counterexample.  The claim asserts `isFetching` is false after
*every* completed invocation of `updateWeatherData`.  An invocation
arriving while the flag is set (the skip path of lines 704–707) returns
immediately and leaves the flag true — it is the other, in-flight
invocation that will clear it. -/
theorem C10_counterexample :
    (updateWeatherData ⟨none, none, true⟩ (.error "scrape failed") 0).isFetching = true := rfl

/-- C10, amended.  Every invocation that actually begins a refresh
(entered with the flag clear) ends with `isFetching = false`, whether the
scrape succeeded or raised a failure — so a failed refresh never
permanently blocks later refreshes; an invocation arriving while the
flag is set is a no-op that leaves the whole state (flag included)
unchanged. -/
theorem C10_amended : ∀ (s : SysState) (r : Except String ForecastSet) (t : Nat),
    (s.isFetching = false → (updateWeatherData s r t).isFetching = false) ∧
    (s.isFetching = true → updateWeatherData s r t = s) := by
  intro s r t
  constructor
  · intro h
    unfold updateWeatherData
    rw [if_neg (by simp [h])]
    cases r <;> rfl
  · intro h
    unfold updateWeatherData
    rw [if_pos h]

/-- C10, witness: a refresh that begins with the flag clear and fails
still ends with the flag clear. -/
theorem C10_witness :
    (updateWeatherData ⟨none, none, false⟩ (.error "scrape failed") 0).isFetching = false :=
  (C10_amended ⟨none, none, false⟩ (.error "scrape failed") 0).1 rfl

end Sunshine
